import Mathlib

/-
Shallow embedding of the interactive-feedback-mcp repository (src/server.py and
src/feedback_ui.py) together with proofs about its session controller.

Python strings are modelled as `List Char`; Python `None`/values as `Option`;
the Python `set` of selected files as a duplicate-free list carrying the set's
iteration order; the filesystem and the psutil process table as explicit
function-valued parameters.  Every definition is translated from the source
file and line it names in its doc comment.
-/

set_option maxRecDepth 10000

namespace IFMcp

abbrev Str := List Char

/-- The characters Python's `str.strip()` / `str.rstrip()` remove by default
(ASCII whitespace; the embedding restricts to the ASCII range). -/
def isPySpace (c : Char) : Bool :=
  c = ' ' || c = '\t' || c = '\n' || c = '\r' || c.toNat = 11 || c.toNat = 12

/-- Python `s.strip()`: drop whitespace from both ends. -/
def pyStrip (s : Str) : Str :=
  ((s.dropWhile isPySpace).reverse.dropWhile isPySpace).reverse

/-- Python `s.rstrip()`: drop whitespace from the right end. -/
def pyRstrip (s : Str) : Str :=
  (s.reverse.dropWhile isPySpace).reverse

/-- Python `s.split("\n")`: split on every newline, keeping empty pieces;
the result is always non-empty. -/
def pySplitNl : Str → List Str
  | [] => [[]]
  | c :: rest =>
    if c = '\n' then [] :: pySplitNl rest
    else
      match pySplitNl rest with
      | [] => [[c]]
      | h :: t => (c :: h) :: t

/-- Python `"\n".join(parts)`. -/
def joinNl : List Str → Str
  | [] => []
  | [x] => x
  | x :: y :: ys => x ++ '\n' :: joinNl (y :: ys)

/-- Lexicographic comparison of paths by code point, `a ≤ b`
(the order Python's `sorted` uses on `str`). -/
def pathLeB : Str → Str → Bool
  | [], _ => true
  | _ :: _, [] => false
  | a :: as, b :: bs => if a = b then pathLeB as bs else decide (a.toNat < b.toNat)

def pathLe (a b : Str) : Prop := pathLeB a b = true

instance : DecidableRel pathLe :=
  fun a b => inferInstanceAs (Decidable (pathLeB a b = true))

/-- Python `sorted(paths)` (stable sort under the lexicographic order). -/
def sortPaths (l : List Str) : List Str := List.insertionSort pathLe l

/-! ### src/server.py -/

/-- One `.md` file found by the recursive glob of
`find_latest_modified_md_file` (src/server.py lines 24-25): its path relative
to the project directory and its modification time. -/
structure MdFile where
  path : Str
  mtime : Nat

/-- Descending `mtime` order used by `md_files.sort(key=..., reverse=True)`. -/
def mtimeGe (a b : MdFile) : Prop := b.mtime ≤ a.mtime

instance : DecidableRel mtimeGe :=
  fun a b => Nat.decLe b.mtime a.mtime

/-- `find_latest_modified_md_file` (src/server.py lines 20-37): if the glob
found no `.md` file return `None`; otherwise stable-sort by modification time,
newest first, and return the first path. -/
def find_latest_modified_md_file (files : List MdFile) : Option Str :=
  if files.isEmpty then none
  else (List.insertionSort mtimeGe files).head?.map MdFile.path

/-- `enhance_modified_files` (src/server.py lines 39-49): copy the caller's
list (`None` becomes `[]`), and append the latest modified `.md` file when one
was found (a truthy, i.e. non-empty, path) that is not already in the list. -/
def enhance_modified_files (files : List MdFile) (modified : Option (List Str)) : List Str :=
  let enhanced := modified.getD []
  match find_latest_modified_md_file files with
  | some l => if !l.isEmpty && !(enhanced.contains l) then enhanced ++ [l] else enhanced
  | none => enhanced

/-- The three arguments `launch_feedback_ui` forwards to the feedback UI
process (src/server.py lines 66-77). -/
structure UIArgs where
  projectDirectory : Str
  prompt : Str
  modifiedFiles : List Str

/-- `launch_feedback_ui` (src/server.py lines 51-52, 66-77), restricted to the
data it hands to the UI process; `files` stands for the glob result the
embedded `find_latest_modified_md_file` consumes. -/
def launch_feedback_ui (files : List MdFile) (project_directory summary : Str)
    (modified : Option (List Str)) : UIArgs :=
  { projectDirectory := project_directory
    prompt := summary
    modifiedFiles := enhance_modified_files files modified }

/-- `first_line` (src/server.py lines 100-101): `text.split("\n")[0].strip()`. -/
def first_line (s : Str) : Str :=
  pyStrip ((pySplitNl s).headD [])

/-- The `interactive_feedback` MCP tool (src/server.py lines 103-110):
`launch_feedback_ui(first_line(project_directory), first_line(summary), modified_files)`. -/
def interactive_feedback (files : List MdFile) (project_directory summary : Str)
    (modified : Option (List Str)) : UIArgs :=
  launch_feedback_ui files (first_line project_directory) (first_line summary) modified

/-! ### src/feedback_ui.py: session state and the feedback compositor -/

/-- Outcome of reading one selected file in `_get_selected_files_content`
(src/feedback_ui.py lines 1023-1039): the `os.path.exists` + `open` + `read`
sequence either yields the content, or the path does not exist, or reading
raises an exception whose message is rendered inline. -/
inductive ReadResult where
  | found (content : Str)
  | notFound
  | readError (msg : Str)
  deriving DecidableEq

/-- Session state of `FeedbackUI` as read by `_submit_feedback` and `run`.
`selectedFiles` models the Python set `self.selected_files` as the
duplicate-free list the set's iterator would produce (its iteration order is
arbitrary, not sorted); `readFile` models the filesystem below
`projectDirectory`. `rule1Enabled`/`rule2Enabled` are the checked states of
the two fixed rules of `rules_config` (src/feedback_ui.py lines 705-708), in
their declaration order. -/
structure Session where
  candidateFiles : List Str
  selectedFiles : List Str
  rule1Enabled : Bool
  rule2Enabled : Bool
  feedbackText : Str
  logBuffer : List Str
  readFile : Str → ReadResult

/-- Text of the first rule, key `single_operation`
(src/feedback_ui.py line 706). -/
def ruleText1 : Str :=
  ("ALWAYS BATCH EDIT: GROUP all EDITS on the SAME FILE into ONE OPERATION, do NOT use MULTIPLE CALLS, READ ENTIRE FILE in ONE CALL, do NOT CREATE or MODIFY other FILES unless REQUESTED, applies to ALL TOOL CALLS.".data)

/-- Text of the second rule, key `no_new_md` (src/feedback_ui.py line 707). -/
def ruleText2 : Str :=
  ("AFTER EVERY ACTION OR RESPONSE, THE AGENT MUST CALL MCP interactive_feedback — WITHOUT EXCEPTION — AND MUST NOT COMPLETE OR END THE PROCESS UNTIL USER FEEDBACK IS EMPTY.".data)

/-- `_get_selected_rules` (src/feedback_ui.py lines 792-800): one `"- " + text`
entry per checked rule, iterating the rule dict in declaration order. -/
def get_selected_rules (rule1 rule2 : Bool) : List Str :=
  (if rule1 then [("- ".data) ++ ruleText1] else [])
    ++ (if rule2 then [("- ".data) ++ ruleText2] else [])

/-- The rules section built in `_submit_feedback` (src/feedback_ui.py
line 1158): header plus the newline-joined selected rules. -/
def rules_section (selected_rules : List Str) : Str :=
  ("## Additional Rules to Apply:\n".data) ++ joinNl selected_rules

/-- The `content_parts` entries appended for one selected file in
`_get_selected_files_content` (src/feedback_ui.py lines 1023-1039). -/
def file_part (s : Session) (p : Str) : List Str :=
  match s.readFile p with
  | ReadResult.found content =>
      [("### ".data) ++ p, ("```".data), content, ("```".data), []]
  | ReadResult.notFound =>
      [("### ".data) ++ p ++ (" (file not found)".data), []]
  | ReadResult.readError msg =>
      [("### ".data) ++ p ++ (" (error reading: ".data) ++ msg ++ (")".data), []]

/-- The non-`None` result of `_get_selected_files_content`
(src/feedback_ui.py lines 1019-1041): header lines, then the parts of each
selected file in lexical path order, joined with newlines. -/
def files_block (s : Session) : Str :=
  joinNl ((("## Files Modified by User:".data) :: [] :: [])
    ++ (sortPaths s.selectedFiles).flatMap (file_part s))

/-- `_get_selected_files_content` (src/feedback_ui.py lines 1014-1041):
`None` when no file is selected, otherwise the files block. -/
def get_selected_files_content (s : Session) : Option Str :=
  if s.selectedFiles.isEmpty then none else some (files_block s)

/-- `FeedbackResult` (src/feedback_ui.py lines 25-29). -/
structure FeedbackResult where
  command_logs : Str
  interactive_feedback : Str
  modified_files_content : Option Str
  selected_files : List Str

/-- `_submit_feedback` (src/feedback_ui.py lines 1145-1180): strip the free
text; prepend the rules section if any rule is selected; prepend the files
block (with a `## User Feedback:` heading before the rest when the rest is
non-empty); package the result.  Python truthiness of strings is emptiness;
`selected_files=list(self.selected_files)` snapshots the set in iteration
order. -/
def submit_feedback (s : Session) : FeedbackResult :=
  let selected_files_content := get_selected_files_content s
  let selected_rules := get_selected_rules s.rule1Enabled s.rule2Enabled
  let user_feedback := pyStrip s.feedbackText
  let combined1 :=
    if selected_rules.isEmpty then user_feedback
    else
      let rs := rules_section selected_rules
      if user_feedback.isEmpty then rs
      else rs ++ ("\n\n".data) ++ user_feedback
  let combined2 :=
    match selected_files_content with
    | none => combined1
    | some fc =>
      if fc.isEmpty then combined1
      else if combined1.isEmpty then fc
      else fc ++ ("\n\n## User Feedback:\n".data) ++ combined1
  { command_logs := s.logBuffer.flatten
    interactive_feedback := combined2
    modified_files_content := selected_files_content
    selected_files := s.selectedFiles }

/-- The tail of `FeedbackUI.run` (src/feedback_ui.py lines 1210-1225): after
the event loop ends, return the stored submission result, or, when the
session closed without ever submitting, the documented empty result built
from the accumulated log buffer. -/
def run_result (s : Session) (feedback_result : Option FeedbackResult) : FeedbackResult :=
  match feedback_result with
  | some r => r
  | none =>
    { command_logs := s.logBuffer.flatten
      interactive_feedback := []
      modified_files_content := none
      selected_files := [] }

/-! ### src/feedback_ui.py: initial file selection and rule persistence -/

/-- Python `path.lower()` (ASCII range). -/
def pyLower (s : Str) : Str := s.map Char.toLower

/-- `file_path.lower().endswith('.md')` (src/feedback_ui.py lines 224 and
621): the default-selection test for a candidate file. -/
def initially_selected (p : Str) : Bool :=
  (".md".data).isSuffixOf (pyLower p)

/-- The set `self.selected_files` right after `_create_file_changes_section`
(src/feedback_ui.py lines 618-622): exactly the candidates passing the
default-selection test (when the candidate list is empty the section is never
built and the set stays empty, which coincides with filtering nothing). -/
def initial_selected_files (candidates : List Str) : List Str :=
  candidates.filter initially_selected

/-- `self.settings.value(f"rule_{rule_key}", True, type=bool)`
(src/feedback_ui.py line 748): the persisted rule choice, defaulting to
`True` when the settings store has none. -/
def loaded_rule_state (persisted : Option Bool) : Bool :=
  persisted.getD true

/-- The initial checked state given to a rule checkbox
(src/feedback_ui.py line 752): `checkbox.setChecked(True)` — the loaded
persisted value is only stored into `checkbox._initial_state` (line 755) and
never applied to the checkbox. -/
def initial_rule_checked (_persisted : Option Bool) : Bool :=
  true

/-! ### src/feedback_ui.py: command runner -/

/-- The state `_run_command` reads and writes (src/feedback_ui.py lines
1087-1143): the optional process handle, the log buffer, the visible console
log (`self.log_text`, receiving rstripped lines via `_append_log`), and the
run button label. -/
structure RunnerState where
  process : Option Nat
  logBuffer : List Str
  uiLog : List Str
  runButtonText : Str

/-- Result of the `subprocess.Popen` call (src/feedback_ui.py lines
1106-1118): a process handle, or an exception message caught at line 1141. -/
inductive LaunchOutcome where
  | ok (handle : Nat)
  | raised (msg : Str)

/-- `_append_log` (src/feedback_ui.py lines 1070-1075): append the raw text
to the buffer and the rstripped text to the console widget. -/
def appendLog (st : RunnerState) (text : Str) : RunnerState :=
  { st with logBuffer := st.logBuffer ++ [text], uiLog := st.uiLog ++ [pyRstrip text] }

/-- `_run_command` (src/feedback_ui.py lines 1087-1143).  With a process
present the call is a stop-toggle (the `kill_tree` side effect acts on the
process table, not on this state).  Otherwise the log buffer is cleared
first, then an empty command only logs a message; a non-empty command logs
`$ command`, flips the button, and either records the new handle or logs the
launch error. -/
def run_command (st : RunnerState) (command : Str) (launch : LaunchOutcome) : RunnerState :=
  match st.process with
  | some _ => { st with process := none, runButtonText := ("&Run".data) }
  | none =>
    let cleared := { st with logBuffer := [] }
    if command.isEmpty then
      appendLog cleared ("Please enter a command to run\n".data)
    else
      let started :=
        { appendLog cleared (("$ ".data) ++ command ++ ("\n".data)) with
          runButtonText := ("Sto&p".data) }
      match launch with
      | LaunchOutcome.ok h => { started with process := some h }
      | LaunchOutcome.raised msg =>
        { appendLog started (("Error running command: ".data) ++ msg ++ ("\n".data)) with
          runButtonText := ("&Run".data) }

/-! ### src/feedback_ui.py: process tree terminator -/

/-- The psutil error hierarchy as far as `kill_tree` observes it: every
`except psutil.Error` clause swallows any member, and the unguarded
`psutil.Process(pid)` constructor raises `NoSuchProcess` when the pid cannot
be resolved. -/
inductive PsutilErr where
  | noSuchProcess
  deriving DecidableEq

/-- A snapshot of the process table `kill_tree` runs against: which pids
psutil can resolve (running processes and exited-but-unreaped zombies), the
recursively enumerated children of each pid, and whether the individual
`kill()` / `is_running()` / `terminate()` calls on a pid raise a
`psutil.Error`. -/
structure ProcTable where
  alive : List Nat
  children : Nat → List Nat
  killRaises : Nat → Bool
  running : Nat → Bool
  termRaises : Nat → Bool

/-- `psutil.Process(process.pid)` (src/feedback_ui.py line 96): resolves the
pid or raises `NoSuchProcess`. -/
def psutil_Process (t : ProcTable) (pid : Nat) : Except PsutilErr Nat :=
  if pid ∈ t.alive then Except.ok pid else Except.error PsutilErr.noSuchProcess

/-- `kill_tree` (src/feedback_ui.py lines 94-115): resolve the root
(unguarded), kill every enumerated descendant inside `try/except
psutil.Error` (appending to `killed` only on success), kill the root inside
its own `try/except`, append the root unconditionally, then re-check each
killed process and `terminate()` stragglers, again swallowing every
`psutil.Error`.  The returned list is the final `killed` list. -/
def kill_tree (t : ProcTable) (pid : Nat) : Except PsutilErr (List Nat) := do
  let parent ← psutil_Process t pid
  let killedChildren :=
    (t.children parent).foldl
      (fun acc proc => if t.killRaises proc then acc else acc ++ [proc]) []
  let killed := killedChildren ++ [parent]
  let _ := killed.map (fun proc => if t.running proc then !t.termRaises proc else true)
  pure killed

/-! ### Substring occurrence (used to state the compose-ordering claims) -/

/-- All start indices at which `needle` occurs in `hay`. -/
def occIdxs (needle hay : Str) : List Nat :=
  (List.range (hay.length + 1)).filter (fun i => needle.isPrefixOf (hay.drop i))

/-- Decidable check that some occurrence of `a` starts strictly before some
occurrence of `b` in `hay`. -/
def containsBeforeB (a b hay : Str) : Bool :=
  (occIdxs a hay).any (fun i => (occIdxs b hay).any (fun j => decide (i < j)))

/-- `hay` contains an occurrence of `a` starting before an occurrence of `b`. -/
def ContainsBefore (a b hay : Str) : Prop :=
  ∃ i j, i < j ∧ a.isPrefixOf (hay.drop i) = true ∧ b.isPrefixOf (hay.drop j) = true

/-- Decidable substring check: `needle` occurs somewhere in `hay`. -/
def containsSub (needle hay : Str) : Bool :=
  !(occIdxs needle hay).isEmpty

/-! ### Concrete instances used by counterexamples and witnesses -/

/-- Session with one enabled rule, one selected readable file and non-empty
free text. -/
def sessionC1 : Session :=
  { candidateFiles := [("a.txt".data)]
    selectedFiles := [("a.txt".data)]
    rule1Enabled := true
    rule2Enabled := false
    feedbackText := ("ok".data)
    logBuffer := []
    readFile := fun p => if p = ("a.txt".data) then ReadResult.found ("hello".data) else ReadResult.notFound }

/-- Session with the second rule enabled, one selected missing file and
non-empty free text. -/
def sessionC1w : Session :=
  { candidateFiles := [("b.txt".data)]
    selectedFiles := [("b.txt".data)]
    rule1Enabled := false
    rule2Enabled := true
    feedbackText := ("go".data)
    logBuffer := []
    readFile := fun _ => ReadResult.notFound }

/-- Session whose selected-file set iterates in non-lexical order (a Python
set fixes no order over its elements). -/
def sessionC2 : Session :=
  { candidateFiles := [("a.md".data), ("b.md".data)]
    selectedFiles := [("b.md".data), ("a.md".data)]
    rule1Enabled := false
    rule2Enabled := false
    feedbackText := ("ok".data)
    logBuffer := []
    readFile := fun _ => ReadResult.notFound }

/-- Session with whitespace-only free text, one enabled rule and one selected
file. -/
def sessionC3 : Session :=
  { candidateFiles := [("a.txt".data)]
    selectedFiles := [("a.txt".data)]
    rule1Enabled := true
    rule2Enabled := false
    feedbackText := ("  ".data)
    logBuffer := []
    readFile := fun p => if p = ("a.txt".data) then ReadResult.found ("hello".data) else ReadResult.notFound }

/-- Session with whitespace-only free text, one enabled rule and no selected
file. -/
def sessionC3w : Session :=
  { candidateFiles := []
    selectedFiles := []
    rule1Enabled := true
    rule2Enabled := false
    feedbackText := ("   ".data)
    logBuffer := []
    readFile := fun _ => ReadResult.notFound }

/-- Process table in which the root pid has exited and been reaped: psutil
cannot resolve it. -/
def tableC5 : ProcTable :=
  { alive := []
    children := fun _ => []
    killRaises := fun _ => false
    running := fun _ => false
    termRaises := fun _ => false }

/-- Process table with a resolvable root whose every per-process signal
raises (the already-exited descendant case). -/
def tableC5w : ProcTable :=
  { alive := [3]
    children := fun _ => [4]
    killRaises := fun _ => true
    running := fun _ => true
    termRaises := fun _ => true }

/-- Runner state with no process and a non-empty prior log buffer. -/
def runnerC8 : RunnerState :=
  { process := none
    logBuffer := [("old\n".data)]
    uiLog := [("old".data)]
    runButtonText := ("&Run".data) }

/-! ### Helper lemmas -/

theorem joinNl_cons (x : Str) (xs : List Str) : ∃ r, joinNl (x :: xs) = x ++ r := by
  cases xs with
  | nil => exact ⟨[], by simp [joinNl]⟩
  | cons y ys => exact ⟨'\n' :: joinNl (y :: ys), rfl⟩

theorem rules_section_ne_nil (rs : List Str) : rules_section rs ≠ [] :=
  List.append_ne_nil_of_left_ne_nil (by decide) _

theorem files_block_ne_nil (s : Session) : files_block s ≠ [] := by
  unfold files_block
  obtain ⟨r, hr⟩ := joinNl_cons (("## Files Modified by User:".data))
    ([] :: (sortPaths s.selectedFiles).flatMap (file_part s))
  rw [List.cons_append, List.cons_append, List.nil_append, hr]
  exact List.append_ne_nil_of_left_ne_nil (by decide) _

theorem isPrefixOf_drop_bound {a hay : Str} {i : Nat} (ha : a ≠ [])
    (h : a.isPrefixOf (hay.drop i) = true) : i ≤ hay.length := by
  by_contra hlt
  push_neg at hlt
  have hdrop : hay.drop i = [] := by
    rw [List.drop_eq_nil_iff]
    omega
  rw [hdrop] at h
  cases a with
  | nil => exact ha rfl
  | cons c cs => simp [List.isPrefixOf] at h

theorem containsBeforeB_iff {a b hay : Str} (ha : a ≠ []) (hb : b ≠ []) :
    containsBeforeB a b hay = true ↔ ContainsBefore a b hay := by
  unfold containsBeforeB occIdxs ContainsBefore
  simp only [List.any_eq_true, List.mem_filter, List.mem_range, decide_eq_true_eq]
  constructor
  · rintro ⟨i, ⟨_, hi⟩, j, ⟨_, hj⟩, hij⟩
    exact ⟨i, j, hij, hi, hj⟩
  · rintro ⟨i, j, hij, hi, hj⟩
    refine ⟨i, ⟨?_, hi⟩, j, ⟨?_, hj⟩, hij⟩
    · exact Nat.lt_succ_of_le (isPrefixOf_drop_bound ha hi)
    · exact Nat.lt_succ_of_le (isPrefixOf_drop_bound hb hj)

theorem pySplitNl_ne_nil (s : Str) : pySplitNl s ≠ [] := by
  cases s with
  | nil => simp [pySplitNl]
  | cons c rest =>
    by_cases hc : c = '\n'
    · simp [pySplitNl, hc]
    · simp only [pySplitNl, if_neg hc]
      cases pySplitNl rest <;> simp

theorem pySplitNl_headD (s : Str) :
    (pySplitNl s).headD [] = s.takeWhile (fun c => !(c = '\n')) := by
  induction s with
  | nil => rfl
  | cons c rest ih =>
    by_cases hc : c = '\n'
    · subst hc
      simp [pySplitNl, List.takeWhile]
    · simp only [pySplitNl, if_neg hc]
      cases hsplit : pySplitNl rest with
      | nil => exact absurd hsplit (pySplitNl_ne_nil rest)
      | cons h t =>
        have hh : h = rest.takeWhile (fun c => !(c = '\n')) := by
          have := ih
          rw [hsplit] at this
          simpa using this
        simp [List.takeWhile, hc, hh]

theorem first_line_eq_strip_takeWhile (s : Str) :
    first_line s = pyStrip (s.takeWhile (fun c => !(c = '\n'))) := by
  rw [first_line, pySplitNl_headD]

/-- C9: for every call to the public `interactive_feedback` tool, the
`project_directory` and `summary` arguments are each reduced to their first
line (the text before the first newline) with surrounding whitespace stripped
before the feedback UI is launched, so text after the first newline in either
argument never reaches the session. -/
theorem interactive_feedback_first_line_only
    (files : List MdFile) (project_directory summary : Str) (modified : Option (List Str)) :
    (interactive_feedback files project_directory summary modified).projectDirectory
        = pyStrip (project_directory.takeWhile (fun c => !(c = '\n')))
      ∧ (interactive_feedback files project_directory summary modified).prompt
        = pyStrip (summary.takeWhile (fun c => !(c = '\n'))) := by
  constructor
  · simp [interactive_feedback, launch_feedback_ui, first_line_eq_strip_takeWhile]
  · simp [interactive_feedback, launch_feedback_ui, first_line_eq_strip_takeWhile]

/-- C10: the candidate file list handed to the UI is exactly the
caller-supplied list (`[]` if none) kept in its original order as a prefix,
with the latest modified `.md` file appended at the end precisely when such a
file was found (a non-empty path) and is not already present in the list — in
every other case the list is handed over unchanged. -/
theorem interactive_feedback_modified_files
    (files : List MdFile) (project_directory summary : Str) (modified : Option (List Str)) :
    (modified.getD []) <+: (interactive_feedback files project_directory summary modified).modifiedFiles
      ∧ (interactive_feedback files project_directory summary modified).modifiedFiles
        = (modified.getD [])
          ++ (match find_latest_modified_md_file files with
            | some l => if !l.isEmpty && !((modified.getD []).contains l) then [l] else []
            | none => []) := by
  have h : ∀ o : Option Str,
      (match o with
        | some l =>
          if !l.isEmpty && !((modified.getD []).contains l)
          then (modified.getD []) ++ [l] else (modified.getD [])
        | none => (modified.getD []))
      = (modified.getD [])
        ++ (match o with
          | some l => if !l.isEmpty && !((modified.getD []).contains l) then [l] else []
          | none => []) := by
    intro o
    cases o with
    | none => simp
    | some l =>
      show (if (!l.isEmpty && !((modified.getD []).contains l)) = true
            then (modified.getD []) ++ [l] else (modified.getD []))
          = (modified.getD [])
            ++ (if (!l.isEmpty && !((modified.getD []).contains l)) = true then [l] else [])
      by_cases hc : (!l.isEmpty && !((modified.getD []).contains l)) = true
      · rw [if_pos hc, if_pos hc]
      · rw [if_neg hc, if_neg hc]
        simp
  have heq : (interactive_feedback files project_directory summary modified).modifiedFiles
      = (modified.getD [])
        ++ (match find_latest_modified_md_file files with
          | some l => if !l.isEmpty && !((modified.getD []).contains l) then [l] else []
          | none => []) := h (find_latest_modified_md_file files)
  refine ⟨?_, heq⟩
  rw [heq]
  exact ⟨_, rfl⟩

theorem isEmpty_false_of_ne_nil {α : Type} {l : List α} (h : l ≠ []) : l.isEmpty = false := by
  cases hl : l with
  | nil => exact absurd hl h
  | cons a t => rfl

/-- C1 counterexample: in a session with one enabled rule, one selected file
(content `hello`) and free text `ok`, the composed document does not contain
the rule's text before the file's content — the compositor puts the files
block first. -/
theorem submit_rules_not_before_files_cex :
    get_selected_rules sessionC1.rule1Enabled sessionC1.rule2Enabled ≠ []
      ∧ sessionC1.selectedFiles ≠ []
      ∧ pyStrip sessionC1.feedbackText ≠ []
      ∧ ¬ ContainsBefore ruleText1 ("hello".data) (submit_feedback sessionC1).interactive_feedback := by
  refine ⟨by decide, by decide, by decide, ?_⟩
  intro h
  have ha : ruleText1 ≠ ([] : Str) := by decide
  have hh : ("hello".data) ≠ ([] : Str) := by decide
  have hb := (containsBeforeB_iff ha hh).mpr h
  have hfalse : containsBeforeB ruleText1 ("hello".data)
      (submit_feedback sessionC1).interactive_feedback = false := by decide
  rw [hfalse] at hb
  exact Bool.false_ne_true hb

/-- C1 amended: with at least one enabled rule, at least one selected file
and non-empty stripped free text, the composed document is the files block,
then the `## User Feedback:` heading, then the rules section, then the free
text — the files' content precedes the rules' text, which precedes the free
text. -/
theorem submit_compose_order (s : Session)
    (hr : get_selected_rules s.rule1Enabled s.rule2Enabled ≠ [])
    (hf : s.selectedFiles ≠ [])
    (ht : pyStrip s.feedbackText ≠ []) :
    (submit_feedback s).interactive_feedback
      = files_block s ++ ("\n\n## User Feedback:\n".data)
        ++ (rules_section (get_selected_rules s.rule1Enabled s.rule2Enabled)
          ++ ("\n\n".data) ++ pyStrip s.feedbackText) := by
  have hsel : s.selectedFiles.isEmpty = false := isEmpty_false_of_ne_nil hf
  have hrules : (get_selected_rules s.rule1Enabled s.rule2Enabled).isEmpty = false :=
    isEmpty_false_of_ne_nil hr
  have huf : (pyStrip s.feedbackText).isEmpty = false := isEmpty_false_of_ne_nil ht
  have hfc : get_selected_files_content s = some (files_block s) := by
    simp [get_selected_files_content, hsel]
  have hfb : (files_block s).isEmpty = false := isEmpty_false_of_ne_nil (files_block_ne_nil s)
  have hcomb : (rules_section (get_selected_rules s.rule1Enabled s.rule2Enabled)
      ++ ("\n\n".data) ++ pyStrip s.feedbackText).isEmpty = false :=
    isEmpty_false_of_ne_nil
      (List.append_ne_nil_of_left_ne_nil
        (List.append_ne_nil_of_left_ne_nil (rules_section_ne_nil _) _) _)
  simp [submit_feedback, hfc, hrules, huf, hfb, hcomb]

/-- C1 witness: the amended compose order at a concrete session with the
second rule enabled, one selected (missing) file and free text `go`. -/
theorem submit_compose_order_witness :
    (submit_feedback sessionC1w).interactive_feedback
      = files_block sessionC1w ++ ("\n\n## User Feedback:\n".data)
        ++ (rules_section (get_selected_rules sessionC1w.rule1Enabled sessionC1w.rule2Enabled)
          ++ ("\n\n".data) ++ pyStrip sessionC1w.feedbackText) :=
  submit_compose_order sessionC1w (by decide) (by decide) (by decide)

/-- C3 counterexample: with whitespace-only free text but both an enabled
rule and a selected file, the composed document does contain the
`## User Feedback:` heading (it introduces the rules section). -/
theorem submit_heading_present_cex :
    pyStrip sessionC3.feedbackText = []
      ∧ sessionC3.selectedFiles ≠ []
      ∧ get_selected_rules sessionC3.rule1Enabled sessionC3.rule2Enabled ≠ []
      ∧ containsSub ("## User Feedback:".data) (submit_feedback sessionC3).interactive_feedback = true := by
  refine ⟨by decide, by decide, by decide, by decide⟩

/-- C3 amended: with whitespace-only free text the compositor emits no
`## User Feedback:` heading when at most one of the files/rules sections is
non-empty (the document is that section alone, or empty); only when both are
non-empty is the heading emitted, between the files block and the rules
section. -/
theorem submit_no_text_heading (s : Session) (ht : pyStrip s.feedbackText = []) :
    (submit_feedback s).interactive_feedback
      = (match get_selected_files_content s,
            get_selected_rules s.rule1Enabled s.rule2Enabled with
        | none, [] => ([] : Str)
        | none, r :: rs => rules_section (r :: rs)
        | some fc, [] => fc
        | some fc, r :: rs => fc ++ ("\n\n## User Feedback:\n".data) ++ rules_section (r :: rs)) := by
  cases hfc : get_selected_files_content s with
  | none =>
    cases hrl : get_selected_rules s.rule1Enabled s.rule2Enabled with
    | nil => simp [submit_feedback, hfc, hrl, ht]
    | cons r rs => simp [submit_feedback, hfc, hrl, ht]
  | some fc =>
    have hfcE : fc.isEmpty = false := by
      unfold get_selected_files_content at hfc
      by_cases hsel : s.selectedFiles.isEmpty
      · simp [hsel] at hfc
      · simp [hsel] at hfc
        exact hfc ▸ isEmpty_false_of_ne_nil (files_block_ne_nil s)
    cases hrl : get_selected_rules s.rule1Enabled s.rule2Enabled with
    | nil => simp [submit_feedback, hfc, hrl, ht, hfcE]
    | cons r rs =>
      have hrs : (rules_section (r :: rs)).isEmpty = false :=
        isEmpty_false_of_ne_nil (rules_section_ne_nil _)
      simp [submit_feedback, hfc, hrl, ht, hfcE, hrs]

/-- C3 witness: the amended characterisation at a concrete session with
whitespace-only text, one enabled rule and no selected file. -/
theorem submit_no_text_heading_witness :
    pyStrip sessionC3w.feedbackText = []
      ∧ (submit_feedback sessionC3w).interactive_feedback
        = (match get_selected_files_content sessionC3w,
              get_selected_rules sessionC3w.rule1Enabled sessionC3w.rule2Enabled with
          | none, [] => ([] : Str)
          | none, r :: rs => rules_section (r :: rs)
          | some fc, [] => fc
          | some fc, r :: rs => fc ++ ("\n\n## User Feedback:\n".data) ++ rules_section (r :: rs)) :=
  ⟨by decide, submit_no_text_heading sessionC3w (by decide)⟩

/-- C2 counterexample: a session whose selected-file set iterates in
non-lexical order is packaged as-is, so the `selected_files` field of the
result is not the lexically ordered snapshot the claim demands. -/
theorem submit_selected_files_not_sorted_cex :
    sessionC2.selectedFiles ≠ []
      ∧ (submit_feedback sessionC2).selected_files ≠ sortPaths sessionC2.selectedFiles := by
  exact ⟨by decide, by decide⟩

/-- C2 amended: the `selected_files` field of the result is the snapshot of
the selected-file set in the set's own iteration order — a permutation of the
lexically sorted sequence, but not necessarily sorted (only the files-content
block sorts paths lexically). -/
theorem submit_selected_files_snapshot (s : Session) :
    (submit_feedback s).selected_files = s.selectedFiles
      ∧ (submit_feedback s).selected_files.Perm (sortPaths s.selectedFiles) := by
  refine ⟨rfl, ?_⟩
  exact (List.perm_insertionSort pathLe s.selectedFiles).symm

/-- C4: the persisted rule choice is loaded from the settings store (with
default enabled) but the checkbox is nevertheless initialised to enabled
unconditionally, so a persisted disabled choice does not carry over — the
code contradicts the restore-on-start intent of its own load/save logic. -/
theorem initial_rule_checked_ignores_persisted :
    loaded_rule_state (some false) = false ∧ initial_rule_checked (some false) = true :=
  ⟨rfl, rfl⟩

/-- C5 counterexample: when the root process has already exited and been
reaped, its pid is no longer resolvable and the unguarded
`psutil.Process(process.pid)` constructor raises `NoSuchProcess`, so the
terminator does not return without exception for every child-process state. -/
theorem kill_tree_raises_cex :
    kill_tree tableC5 7 = Except.error PsutilErr.noSuchProcess := by
  rfl

/-- C5 amended: whenever the root pid is still resolvable (a running process
or an exited-but-unreaped zombie — the only states reachable through this
program's handle usage), the terminator returns without exception, swallowing
every per-process `psutil.Error` of its descendants; only a root whose pid
has disappeared makes it raise. -/
theorem kill_tree_ok_of_resolvable (t : ProcTable) (pid : Nat) (h : pid ∈ t.alive) :
    ∃ killed, kill_tree t pid = Except.ok killed := by
  unfold kill_tree psutil_Process
  rw [if_pos h]
  exact ⟨_, rfl⟩

/-- C5 witness: a resolvable root all of whose per-process signals raise is
still terminated without an escaping exception. -/
theorem kill_tree_ok_of_resolvable_witness :
    3 ∈ tableC5w.alive ∧ ∃ killed, kill_tree tableC5w 3 = Except.ok killed :=
  ⟨by decide, kill_tree_ok_of_resolvable tableC5w 3 (by decide)⟩

/-- C6: a session that closes without ever submitting yields a result whose
`command_logs` is the accumulated log buffer joined as text, whose
`interactive_feedback` is empty, whose `selected_files` is the empty list and
whose `modified_files_content` is absent. -/
theorem run_closed_without_submit (s : Session) :
    (run_result s none).command_logs = s.logBuffer.flatten
      ∧ (run_result s none).interactive_feedback = []
      ∧ (run_result s none).selected_files = []
      ∧ (run_result s none).modified_files_content = none :=
  ⟨rfl, rfl, rfl, rfl⟩

/-- C7 counterexample: `NOTES.MD` is initially selected (the code lowercases
before testing the extension) although its path does not end in `.md`, so the
initial selection is not exactly the set of paths ending in `.md`. -/
theorem initial_selection_case_cex :
    ("NOTES.MD".data) ∈ initial_selected_files [("NOTES.MD".data)]
      ∧ (".md".data).isSuffixOf ("NOTES.MD".data) = false := by
  exact ⟨by decide, by decide⟩

/-- C7 amended: immediately after construction the selected set is exactly
the subset of candidate paths whose lowercased path ends in `.md`
(case-insensitive extension match). -/
theorem initial_selection_iff (candidates : List Str) (p : Str) :
    p ∈ initial_selected_files candidates
      ↔ p ∈ candidates ∧ (".md".data).isSuffixOf (pyLower p) = true := by
  simp [initial_selected_files, initially_selected, List.mem_filter]

/-- C8 counterexample: starting with an empty command while no process runs
clears the prior log buffer before the command is validated — the earlier
buffer entry is gone afterwards, contradicting the claimed frame condition. -/
theorem run_command_empty_clears_log_cex :
    runnerC8.process = none
      ∧ (run_command runnerC8 [] (LaunchOutcome.ok 0)).process = none
      ∧ ("old\n".data) ∉ (run_command runnerC8 [] (LaunchOutcome.ok 0)).logBuffer := by
  exact ⟨rfl, by decide, by decide⟩

/-- C8 amended: with no process running, `start` on an empty command launches
nothing and appends a user-visible message, but it clears the prior log
buffer first — afterwards the buffer holds only the message (clearing happens
on every start attempt that is not reinterpreted as stop, not only on
successful starts). -/
theorem run_command_empty (st : RunnerState) (launch : LaunchOutcome)
    (hp : st.process = none) :
    run_command st [] launch
      = { st with process := none,
                  logBuffer := [("Please enter a command to run\n".data)],
                  uiLog := st.uiLog ++ [pyRstrip ("Please enter a command to run\n".data)] } := by
  cases st with
  | mk process logBuffer uiLog runButtonText =>
    cases hp
    rfl

/-- C8 witness: the amended behaviour at a concrete runner state with a
non-empty prior buffer. -/
theorem run_command_empty_witness :
    runnerC8.process = none
      ∧ run_command runnerC8 [] (LaunchOutcome.ok 0)
        = { runnerC8 with
            process := none,
            logBuffer := [("Please enter a command to run\n".data)],
            uiLog := runnerC8.uiLog ++ [pyRstrip ("Please enter a command to run\n".data)] } :=
  ⟨rfl, run_command_empty runnerC8 (LaunchOutcome.ok 0) rfl⟩

end IFMcp
